import Mathlib

/-!
Verification of the acurite-rpi-connect weather-station poller (src/main.rs)
against its natural-language specification.

Modelling conventions:
* Bytes of the receive buffer are `Nat` values; every byte delivered by the
  USB layer is < 256, and all bit operations used by the program
  (`&&&`, `|||`, `<<<`, `>>>`) stay below 256 because of the masks involved,
  so no wrap-around modelling is needed.
* The `f32` arithmetic of the source (`* 0.62`, `- 400.00`, `/ 10.0`) is
  modelled in exact rational arithmetic `ℚ`; the constants and all values
  reached by the program are small enough that the rational value is the
  intended reading of the spec's decimal literals (153.76 = 3844/25,
  -27.3 = -273/10).
* Rust's panicking slice indexing `vec[i]` is modelled by `List.get?`
  with an `Except String` error standing for the index-out-of-bounds panic.
* Fallible libusb calls are modelled by `Option`/`Except` parameters.
-/

namespace Acurite

/-! ## Report Decoder (src/main.rs lines 145-162) -/

/-- Decoded discriminant-1 report: wind speed, wind direction, rain count
(main.rs lines 148-153). -/
structure Report1 where
  wind_speed : ℚ
  wind_dir : Nat
  rain_count : Nat
deriving DecidableEq

/-- Decoded discriminant-8 report: wind speed, temperature, humidity
(main.rs lines 156-161). -/
structure Report8 where
  wind_speed : ℚ
  temp : ℚ
  humidity : Nat
deriving DecidableEq

/-- A decoded report is either the discriminant-1 or the discriminant-8 variant. -/
inductive Decoded where
  | r1 (r : Report1)
  | r8 (r : Report8)
deriving DecidableEq

/-- Wind speed formula, common to both branches (main.rs lines 149 and 157):
`(((vec[4] & 0x1f) << 3) | ((vec[5] & 0x70) >> 7)) as f32 * 0.62`.
The u8 arithmetic cannot overflow: `(b4 &&& 0x1f) <<< 3 ≤ 248`. -/
def windSpeedQ (b4 b5 : Nat) : ℚ :=
  ((((b4 &&& 0x1f) <<< 3) ||| ((b5 &&& 0x70) >>> 7) : Nat) : ℚ) * (62 / 100)

/-- Temperature formula of the discriminant-8 branch (main.rs line 158):
`((((vec[5] & 0x0f) >> 7) | (vec[6] & 0x7f)) as f32 - 400.00) / 10.0`. -/
def tempQ (b5 b6 : Nat) : ℚ :=
  (((((b5 &&& 0x0f) >>> 7) ||| (b6 &&& 0x7f) : Nat) : ℚ) - 400) / 10

/-- The discriminant-1 report built from bytes 4, 5 and 7 (main.rs lines 149-151). -/
def mkReport1 (b4 b5 b7 : Nat) : Report1 :=
  { wind_speed := windSpeedQ b4 b5
    wind_dir := b5 &&& 0x0f
    rain_count := b7 &&& 0x7f }

/-- The discriminant-8 report built from bytes 4, 5, 6 and 7 (main.rs lines 157-159). -/
def mkReport8 (b4 b5 b6 b7 : Nat) : Report8 :=
  { wind_speed := windSpeedQ b4 b5
    temp := tempQ b5 b6
    humidity := b7 &&& 0x7f }

/-- The decode step run on the receive buffer after a successful REPORT_ONE
transfer (main.rs lines 146-162).  `vec` is the list of valid bytes
(`vec.set_len(len)` makes its length the transfer's byte count).  The source
indexes `vec[3]`, `vec[4]`, `vec[5]`, `vec[6]`, `vec[7]` with no length
check; an index at or beyond the length is a Rust panic, modelled as
`Except.error`.  The source tests `(vec[3] & 0x0f) == 1` and then
`(vec[3] & 0x0f) == 8` in sequence; the two tests are mutually exclusive,
so they are rendered as an if/else-if chain.  Any other discriminant
produces no report (`Except.ok none`). -/
def decode (vec : List Nat) : Except String (Option Decoded) :=
  match vec.get? 3 with
  | none => Except.error "index out of bounds"
  | some b3 =>
    if b3 &&& 0x0f = 1 then
      match vec.get? 4, vec.get? 5, vec.get? 7 with
      | some b4, some b5, some b7 => Except.ok (some (Decoded.r1 (mkReport1 b4 b5 b7)))
      | _, _, _ => Except.error "index out of bounds"
    else if b3 &&& 0x0f = 8 then
      match vec.get? 4, vec.get? 5, vec.get? 6, vec.get? 7 with
      | some b4, some b5, some b6, some b7 =>
        Except.ok (some (Decoded.r8 (mkReport8 b4 b5 b6 b7)))
      | _, _, _, _ => Except.error "index out of bounds"
    else Except.ok none

/-! ### Claims C1, C2, C3 -/

/-- Claim C1 (code bug): the spec requires buffers with fewer than 8 valid
bytes to be treated as a decode failure that is logged and skipped, with no
out-of-bounds access and no abort.  The code has no length check at all: on
an empty buffer it indexes `vec[3]` and panics, and on a 7-byte buffer whose
discriminant is 1 it indexes `vec[7]` and panics, aborting the process. -/
theorem c1_short_buffer_panics :
    decode [] = Except.error "index out of bounds" ∧
    decode [0x00, 0x00, 0x00, 0x01, 0x1f, 0x70, 0x00] = Except.error "index out of bounds" ∧
    ∀ vec : List Nat, 8 ≤ vec.length → (decode vec).isOk = true := by
  refine ⟨rfl, rfl, ?_⟩
  intro vec h
  match vec with
  | b0 :: b1 :: b2 :: b3 :: b4 :: b5 :: b6 :: b7 :: rest =>
    simp only [decode, List.get?]
    by_cases h1 : b3 &&& 0x0f = 1 <;> by_cases h8 : b3 &&& 0x0f = 8 <;>
      simp [h1, h8, Except.isOk, Except.toBool]
  | [] => simp at h
  | [_] => simp at h
  | [_, _] => simp at h
  | [_, _, _] => simp at h
  | [_, _, _, _] => simp at h
  | [_, _, _, _, _] => simp at h
  | [_, _, _, _, _, _] => simp at h
  | [_, _, _, _, _, _, _] => simp at h

/-- Claim C2: a buffer whose byte 3 has low nibble 1, with byte4 = 0x1F,
byte5 = 0x70, byte7 = 0x7F, decodes to wind speed 153.76 (= 3844/25),
wind direction 0 and rain count 127. -/
theorem c2_report_one_example (vec : List Nat) (b3 : Nat)
    (h3 : vec.get? 3 = some b3) (hd : b3 &&& 0x0f = 1)
    (h4 : vec.get? 4 = some 0x1f) (h5 : vec.get? 5 = some 0x70)
    (h7 : vec.get? 7 = some 0x7f) :
    decode vec = Except.ok (some (Decoded.r1
      { wind_speed := 3844 / 25, wind_dir := 0, rain_count := 127 })) := by
  have hws : windSpeedQ 0x1f 0x70 = 3844 / 25 := by
    have h : (((0x1f &&& 0x1f) <<< 3) ||| ((0x70 &&& 0x70) >>> 7) : Nat) = 248 := by decide
    unfold windSpeedQ
    rw [h]
    norm_num
  simp only [decode, h3, h4, h5, h7, hd, if_pos]
  simp [mkReport1, hws]
  all_goals decide

/-- Witness for C2 at the concrete buffer `[0,0,0,0x01,0x1f,0x70,0x00,0x7f]`. -/
theorem c2_report_one_example_witness :
    decode [0x00, 0x00, 0x00, 0x01, 0x1f, 0x70, 0x00, 0x7f] = Except.ok (some (Decoded.r1
      { wind_speed := 3844 / 25, wind_dir := 0, rain_count := 127 })) :=
  c2_report_one_example _ 0x01 rfl (by decide) rfl rfl rfl

/-- Claim C3: a buffer whose byte 3 has low nibble 8, with byte4 = 0x1F,
byte5 = 0x70, byte6 = 0x7F, byte7 = 0x64, decodes to wind speed 153.76
(= 3844/25), temperature -27.3 (= -273/10) and humidity 100. -/
theorem c3_report_eight_example (vec : List Nat) (b3 : Nat)
    (h3 : vec.get? 3 = some b3) (hd : b3 &&& 0x0f = 8)
    (h4 : vec.get? 4 = some 0x1f) (h5 : vec.get? 5 = some 0x70)
    (h6 : vec.get? 6 = some 0x7f) (h7 : vec.get? 7 = some 0x64) :
    decode vec = Except.ok (some (Decoded.r8
      { wind_speed := 3844 / 25, temp := -273 / 10, humidity := 100 })) := by
  have hws : windSpeedQ 0x1f 0x70 = 3844 / 25 := by
    have h : (((0x1f &&& 0x1f) <<< 3) ||| ((0x70 &&& 0x70) >>> 7) : Nat) = 248 := by decide
    unfold windSpeedQ
    rw [h]
    norm_num
  have ht : tempQ 0x70 0x7f = -273 / 10 := by
    have h : ((((0x70 &&& 0x0f) >>> 7) ||| (0x7f &&& 0x7f)) : Nat) = 127 := by decide
    unfold tempQ
    rw [h]
    norm_num
  have hne : ¬ ((8 : Nat) = 1) := by decide
  simp only [decode, h3, h4, h5, h6, h7, hd, hne, if_neg, if_pos, if_false]
  simp [mkReport8, hws, ht]
  all_goals decide

/-- Witness for C3 at the concrete buffer `[0,0,0,0x08,0x1f,0x70,0x7f,0x64]`. -/
theorem c3_report_eight_example_witness :
    decode [0x00, 0x00, 0x00, 0x08, 0x1f, 0x70, 0x7f, 0x64] = Except.ok (some (Decoded.r8
      { wind_speed := 3844 / 25, temp := -273 / 10, humidity := 100 })) :=
  c3_report_eight_example _ 0x08 rfl (by decide) rfl rfl rfl rfl

/-- Inversion: a decode that returns a discriminant-1 report read bytes 3, 4,
5 and 7, saw discriminant 1, and built the report with `mkReport1`. -/
theorem decode_ok_r1 (vec : List Nat) (r : Report1)
    (h : decode vec = Except.ok (some (Decoded.r1 r))) :
    ∃ b3 b4 b5 b7, vec.get? 3 = some b3 ∧ b3 &&& 0x0f = 1 ∧
      vec.get? 4 = some b4 ∧ vec.get? 5 = some b5 ∧ vec.get? 7 = some b7 ∧
      r = mkReport1 b4 b5 b7 := by
  unfold decode at h
  split at h
  · exact absurd h (by simp)
  · rename_i b3 hg3
    split at h
    · rename_i h1
      split at h
      · rename_i b4 b5 b7 hg4 hg5 hg7
        simp only [Except.ok.injEq, Option.some.injEq, Decoded.r1.injEq] at h
        exact ⟨b3, b4, b5, b7, hg3, h1, hg4, hg5, hg7, h.symm⟩
      · exact absurd h (by simp)
    · split at h
      · split at h
        · exact absurd h (by simp)
        · exact absurd h (by simp)
      · exact absurd h (by simp)

/-- Inversion: a decode that returns a discriminant-8 report read bytes 3-7,
saw discriminant 8, and built the report with `mkReport8`. -/
theorem decode_ok_r8 (vec : List Nat) (r : Report8)
    (h : decode vec = Except.ok (some (Decoded.r8 r))) :
    ∃ b3 b4 b5 b6 b7, vec.get? 3 = some b3 ∧ b3 &&& 0x0f = 8 ∧
      vec.get? 4 = some b4 ∧ vec.get? 5 = some b5 ∧ vec.get? 6 = some b6 ∧
      vec.get? 7 = some b7 ∧ r = mkReport8 b4 b5 b6 b7 := by
  unfold decode at h
  split at h
  · exact absurd h (by simp)
  · rename_i b3 hg3
    split at h
    · split at h
      · exact absurd h (by simp)
      · exact absurd h (by simp)
    · split at h
      · rename_i h8
        split at h
        · rename_i b4 b5 b6 b7 hg4 hg5 hg6 hg7
          simp only [Except.ok.injEq, Option.some.injEq, Decoded.r8.injEq] at h
          exact ⟨b3, b4, b5, b6, b7, hg3, h8, hg4, hg5, hg6, hg7, h.symm⟩
        · exact absurd h (by simp)
      · exact absurd h (by simp)

/-- The mask 0x70 keeps a value below 128, so shifting right by 7 gives 0. -/
theorem and_shift_seven_eq_zero (b : Nat) (m : Nat) (hm : m < 128) :
    (b &&& m) >>> 7 = 0 := by
  have hle : b &&& m ≤ m := Nat.and_le_right
  have hlt : b &&& m < 128 := Nat.lt_of_le_of_lt hle hm
  have : (b &&& m) >>> 7 = (b &&& m) / 2 ^ 7 := Nat.shiftRight_eq_div_pow _ _
  rw [this]
  exact Nat.div_eq_of_lt hlt

/-! ### Claims C9, C10 -/

/-- Claim C9: `(b5 & 0x70) >> 7` is always 0, so the wind speed reduces to
`((b4 & 0x1f) << 3) * 0.62`, depends only on byte 4's low five bits, and is
one of the 32 values `(124/25) * k` for `k < 32` (4.96 = 124/25, and
4.96 * 31 = 153.76); every emitted wind speed, in both report variants,
is of this form. -/
theorem c9_wind_speed_structure :
    (∀ b5 : Nat, (b5 &&& 0x70) >>> 7 = 0) ∧
    (∀ b4 b5 : Nat, windSpeedQ b4 b5 = (((b4 &&& 0x1f) <<< 3 : Nat) : ℚ) * (62 / 100)) ∧
    (∀ b4 b5 c5 : Nat, windSpeedQ b4 b5 = windSpeedQ (b4 &&& 0x1f) c5) ∧
    (∀ b4 b5 : Nat, ∃ k : Nat, k < 32 ∧ windSpeedQ b4 b5 = (124 / 25) * k) ∧
    (∀ (vec : List Nat) (b4 b5 : Nat) (r : Report1),
      vec.get? 4 = some b4 → vec.get? 5 = some b5 →
      decode vec = Except.ok (some (Decoded.r1 r)) → r.wind_speed = windSpeedQ b4 b5) ∧
    (∀ (vec : List Nat) (b4 b5 : Nat) (r : Report8),
      vec.get? 4 = some b4 → vec.get? 5 = some b5 →
      decode vec = Except.ok (some (Decoded.r8 r)) → r.wind_speed = windSpeedQ b4 b5) := by
  have hz : ∀ b5 : Nat, (b5 &&& 0x70) >>> 7 = 0 := fun b5 =>
    and_shift_seven_eq_zero b5 0x70 (by decide)
  have hsimp : ∀ b4 b5 : Nat,
      windSpeedQ b4 b5 = (((b4 &&& 0x1f) <<< 3 : Nat) : ℚ) * (62 / 100) := by
    intro b4 b5
    unfold windSpeedQ
    rw [hz b5, Nat.or_zero]
  refine ⟨hz, hsimp, ?_, ?_, ?_, ?_⟩
  · intro b4 b5 c5
    rw [hsimp, hsimp, Nat.and_assoc]
    norm_num
  · intro b4 b5
    refine ⟨b4 &&& 0x1f, Nat.lt_of_le_of_lt Nat.and_le_right (by decide), ?_⟩
    rw [hsimp, Nat.shiftLeft_eq]
    push_cast
    ring
  · intro vec b4 b5 r h4 h5 hdec
    obtain ⟨b3, c4, c5, c7, _, _, hg4, hg5, _, hr⟩ := decode_ok_r1 vec r hdec
    rw [h4] at hg4
    rw [h5] at hg5
    cases hg4
    cases hg5
    rw [hr]
    rfl
  · intro vec b4 b5 r h4 h5 hdec
    obtain ⟨b3, c4, c5, c6, c7, _, _, hg4, hg5, _, _, hr⟩ := decode_ok_r8 vec r hdec
    rw [h4] at hg4
    rw [h5] at hg5
    cases hg4
    cases hg5
    rw [hr]
    rfl

/-- Witness for C9: the discriminant-1 inversion conjunct applied to the
concrete buffer `[0,0,0,0x01,0x1f,0x70,0x00,0x7f]`. -/
theorem c9_wind_speed_structure_witness :
    (mkReport1 0x1f 0x70 0x7f).wind_speed = windSpeedQ 0x1f 0x70 :=
  c9_wind_speed_structure.2.2.2.2.1 [0x00, 0x00, 0x00, 0x01, 0x1f, 0x70, 0x00, 0x7f]
    0x1f 0x70 (mkReport1 0x1f 0x70 0x7f) rfl rfl rfl

/-- Claim C10: `(b5 & 0x0f) >> 7` is always 0, so the temperature reduces to
`((b6 & 0x7f) - 400) / 10`, depends only on byte 6's low seven bits, and lies
in the interval [-40, -27.3] (-27.3 = -273/10); every emitted temperature
satisfies those bounds, so no temperature above -27.3 is ever printed. -/
theorem c10_temp_structure :
    (∀ b5 : Nat, (b5 &&& 0x0f) >>> 7 = 0) ∧
    (∀ b5 b6 : Nat, tempQ b5 b6 = ((((b6 &&& 0x7f) : Nat) : ℚ) - 400) / 10) ∧
    (∀ b5 c5 b6 : Nat, tempQ b5 b6 = tempQ c5 (b6 &&& 0x7f)) ∧
    (∀ b5 b6 : Nat, -40 ≤ tempQ b5 b6 ∧ tempQ b5 b6 ≤ -273 / 10) ∧
    (∀ (vec : List Nat) (r : Report8),
      decode vec = Except.ok (some (Decoded.r8 r)) →
      -40 ≤ r.temp ∧ r.temp ≤ -273 / 10) := by
  have hz : ∀ b5 : Nat, (b5 &&& 0x0f) >>> 7 = 0 := fun b5 =>
    and_shift_seven_eq_zero b5 0x0f (by decide)
  have hsimp : ∀ b5 b6 : Nat, tempQ b5 b6 = ((((b6 &&& 0x7f) : Nat) : ℚ) - 400) / 10 := by
    intro b5 b6
    unfold tempQ
    rw [hz b5, Nat.zero_or]
  have hbound : ∀ b5 b6 : Nat, -40 ≤ tempQ b5 b6 ∧ tempQ b5 b6 ≤ -273 / 10 := by
    intro b5 b6
    rw [hsimp]
    have hle : (b6 &&& 0x7f) ≤ 127 := Nat.and_le_right
    have hleQ : (((b6 &&& 0x7f) : Nat) : ℚ) ≤ 127 := by exact_mod_cast hle
    have hge : (0 : ℚ) ≤ (((b6 &&& 0x7f) : Nat) : ℚ) := by positivity
    constructor <;> [linarith; linarith]
  refine ⟨hz, hsimp, ?_, hbound, ?_⟩
  · intro b5 c5 b6
    rw [hsimp, hsimp, Nat.and_assoc]
    norm_num
  · intro vec r hdec
    obtain ⟨b3, b4, b5, b6, b7, _, _, _, _, _, _, hr⟩ := decode_ok_r8 vec r hdec
    rw [hr]
    exact hbound b5 b6

/-- Witness for C10: the emitted-temperature bounds applied to the concrete
buffer `[0,0,0,0x08,0x1f,0x70,0x7f,0x64]`. -/
theorem c10_temp_structure_witness :
    -40 ≤ (mkReport8 0x1f 0x70 0x7f 0x64).temp ∧
    (mkReport8 0x1f 0x70 0x7f 0x64).temp ≤ -273 / 10 :=
  c10_temp_structure.2.2.2.2 [0x00, 0x00, 0x00, 0x08, 0x1f, 0x70, 0x7f, 0x64]
    (mkReport8 0x1f 0x70 0x7f 0x64) rfl

/-! ## Endpoint Resolver (src/main.rs lines 87-111) -/

/-- Transfer direction of an endpoint descriptor (libusb `Direction`). -/
inductive Direction where
  | dirIn
  | dirOut
deriving DecidableEq, BEq

/-- An endpoint descriptor: its direction and address. -/
structure EndpointDesc where
  direction : Direction
  address : Nat
deriving DecidableEq

/-- One alternate setting of an interface: its interface number, setting
number and endpoint descriptors, in declaration order. -/
structure InterfaceDesc where
  interface_number : Nat
  setting_number : Nat
  endpoint_descriptors : List EndpointDesc
deriving DecidableEq

/-- An interface: its alternate-setting descriptors in declaration order. -/
structure Interface where
  descriptors : List InterfaceDesc
deriving DecidableEq

/-- A configuration descriptor: its configuration number and interfaces in
declaration order. -/
structure ConfigDesc where
  number : Nat
  interfaces : List Interface
deriving DecidableEq

/-- The device's descriptor tree: entry `n` of `configs` is the result of
`device.config_descriptor(n)` for `n` in `0..num_configurations`; `none`
models a failed descriptor fetch (the `Err(_) => continue` arm). -/
structure Device where
  configs : List (Option ConfigDesc)
deriving DecidableEq

/-- The resolved endpoint value (struct `Endpoint` in main.rs lines 7-13). -/
structure Endpoint where
  config : Nat
  iface : Nat
  setting : Nat
  address : Nat
deriving DecidableEq

/-- Innermost loop of `find_readable_endpoint`: first inbound endpoint
descriptor of one alternate setting, packaged with the configuration number. -/
def findEndpointInSetting (cnum : Nat) (idesc : InterfaceDesc) : Option Endpoint :=
  idesc.endpoint_descriptors.findSome? fun e =>
    if e.direction == Direction.dirIn then
      some { config := cnum, iface := idesc.interface_number,
             setting := idesc.setting_number, address := e.address }
    else none

/-- Loop over one interface's alternate-setting descriptors. -/
def findEndpointInInterface (cnum : Nat) (itf : Interface) : Option Endpoint :=
  itf.descriptors.findSome? (findEndpointInSetting cnum)

/-- Loop over one configuration's interfaces. -/
def findEndpointInConfig (cfg : ConfigDesc) : Option Endpoint :=
  cfg.interfaces.findSome? (findEndpointInInterface cfg.number)

/-- `find_readable_endpoint` (main.rs lines 87-111): walk configuration
indices in order, skip configurations whose descriptor fetch failed, and
return the first endpoint whose direction is `In`, or `none`. -/
def find_readable_endpoint (d : Device) : Option Endpoint :=
  d.configs.findSome? fun oc =>
    match oc with
    | some cfg => findEndpointInConfig cfg
    | none => none

/-- Modelled from the spec: the declaration-ordered flattening of one
alternate setting into (direction, endpoint-value) pairs. -/
def settingPairs (cnum : Nat) (idesc : InterfaceDesc) : List (Direction × Endpoint) :=
  idesc.endpoint_descriptors.flatMap fun e =>
    [(e.direction, { config := cnum, iface := idesc.interface_number,
                     setting := idesc.setting_number, address := e.address })]

/-- Modelled from the spec: flattening of one interface. -/
def interfacePairs (cnum : Nat) (itf : Interface) : List (Direction × Endpoint) :=
  itf.descriptors.flatMap (settingPairs cnum)

/-- Modelled from the spec: flattening of one configuration. -/
def configPairs (cfg : ConfigDesc) : List (Direction × Endpoint) :=
  cfg.interfaces.flatMap (interfacePairs cfg.number)

/-- Modelled from the spec: every endpoint of the tree, in
configuration-index-then-interface-then-alternate-setting-then-endpoint
declaration order, skipping configurations whose descriptor fetch failed. -/
def specFlatten (d : Device) : List (Direction × Endpoint) :=
  d.configs.flatMap fun oc =>
    match oc with
    | some cfg => configPairs cfg
    | none => []

/-- Modelled from the spec: "return the first endpoint whose transfer
direction is device-to-host ... or absence if none exists". -/
def specFirstInbound (d : Device) : Option Endpoint :=
  ((specFlatten d).find? fun q => q.1 == Direction.dirIn).map Prod.snd

/-- A nested early-return search (`findSome?`) agrees with a first-match
search (`find?`) over the flattened list, provided they agree item-wise. -/
theorem findSome?_eq_find?_flatMap {α β γ : Type} (l : List α) (F : α → Option β)
    (G : α → List γ) (p : γ → Bool) (g : γ → β)
    (H : ∀ a, F a = ((G a).find? p).map g) :
    l.findSome? F = ((l.flatMap G).find? p).map g := by
  induction l with
  | nil => simp
  | cons a t ih =>
    rw [List.findSome?_cons, List.flatMap_cons, List.find?_append]
    cases hg : (G a).find? p with
    | some c =>
      have hFa : F a = some (g c) := by rw [H a, hg]; rfl
      rw [hFa]
      simp [Option.or]
    | none =>
      have hFa : F a = none := by rw [H a, hg]; rfl
      rw [hFa]
      simp [Option.or, ih]

/-- Setting-level agreement between the source search and the spec order. -/
theorem findEndpointInSetting_eq (cnum : Nat) (idesc : InterfaceDesc) :
    findEndpointInSetting cnum idesc =
      ((settingPairs cnum idesc).find? fun q => q.1 == Direction.dirIn).map Prod.snd := by
  unfold findEndpointInSetting settingPairs
  refine findSome?_eq_find?_flatMap _ _ _ _ _ ?_
  intro e
  cases he : e.direction == Direction.dirIn <;> simp [List.find?, he]

/-- Interface-level agreement between the source search and the spec order. -/
theorem findEndpointInInterface_eq (cnum : Nat) (itf : Interface) :
    findEndpointInInterface cnum itf =
      ((interfacePairs cnum itf).find? fun q => q.1 == Direction.dirIn).map Prod.snd := by
  unfold findEndpointInInterface interfacePairs
  exact findSome?_eq_find?_flatMap _ _ _ _ _ (findEndpointInSetting_eq cnum)

/-- Configuration-level agreement between the source search and the spec order. -/
theorem findEndpointInConfig_eq (cfg : ConfigDesc) :
    findEndpointInConfig cfg =
      ((configPairs cfg).find? fun q => q.1 == Direction.dirIn).map Prod.snd := by
  unfold findEndpointInConfig configPairs
  exact findSome?_eq_find?_flatMap _ _ _ _ _ (findEndpointInInterface_eq cfg.number)

/-! ### Claim C4 -/

/-- Claim C4: for every device descriptor tree, `find_readable_endpoint`
returns exactly the first device-to-host endpoint in
configuration-index-then-interface-then-alternate-setting-then-endpoint
declaration order (configurations whose descriptor fetch failed contribute
nothing), and `none` when no inbound endpoint exists; being a pure function
of the tree, the result is deterministic. -/
theorem c4_first_inbound_endpoint (d : Device) :
    find_readable_endpoint d = specFirstInbound d := by
  unfold find_readable_endpoint specFirstInbound specFlatten
  refine findSome?_eq_find?_flatMap _ _ _ _ _ ?_
  intro oc
  cases oc with
  | some cfg => exact findEndpointInConfig_eq cfg
  | none => rfl

/-! ## Polling Scheduler (src/main.rs lines 131-191) -/

/-- The two control-transfer requests of the polling loop. -/
inductive Xfer where
  | reportOne
  | reportTwo
deriving DecidableEq

/-- Result of one `read_control` call: the received bytes, or an error. -/
inductive XferResult where
  | ok (bytes : List Nat)
  | err
deriving DecidableEq

/-- Observable actions of one tick: a control transfer was issued, the
"could not read from endpoint" error line was printed, or a decoded report
line was printed. -/
inductive Event where
  | controlTransfer (x : Xfer)
  | readError (x : Xfer)
  | emit (d : Decoded)
deriving DecidableEq

/-- The transfers issued during the tick with counter value `n`, in issue
order: REPORT_ONE when `counter % 10 == 0` (main.rs line 137), then
REPORT_TWO when `counter % 30 == 0` (main.rs line 169). -/
def tickTransfers (n : Nat) : List Xfer :=
  (if n % 10 == 0 then [Xfer.reportOne] else []) ++
  (if n % 30 == 0 then [Xfer.reportTwo] else [])

/-- The REPORT_ONE sub-poll (main.rs lines 138-165): on transfer success the
buffer is decoded (a decode panic propagates as `Except.error`); on transfer
failure the error is printed and nothing else happens. -/
def subPollOne (r : XferResult) : Except String (List Event) :=
  match r with
  | XferResult.err => Except.ok [Event.readError Xfer.reportOne]
  | XferResult.ok buf =>
    match decode buf with
    | Except.error e => Except.error e
    | Except.ok none => Except.ok []
    | Except.ok (some d) => Except.ok [Event.emit d]

/-- The REPORT_TWO sub-poll (main.rs lines 170-182): on success the bytes are
fetched and discarded (only `set_len` runs); on failure the error is printed. -/
def subPollTwo (r : XferResult) : List Event :=
  match r with
  | XferResult.err => [Event.readError Xfer.reportTwo]
  | XferResult.ok _ => []

/-- One iteration of the polling loop at counter value `n`, with `res` giving
the outcome of each control transfer this tick.  The REPORT_ONE sub-poll runs
to completion (a panic aborts the whole tick) before the REPORT_TWO sub-poll
is considered; the counter is then incremented (main.rs line 190). -/
def tickStep (n : Nat) (res : Xfer → XferResult) : Except String (List Event × Nat) :=
  match (if n % 10 == 0
         then (subPollOne (res Xfer.reportOne)).map
           (fun evs => Event.controlTransfer Xfer.reportOne :: evs)
         else Except.ok []) with
  | Except.error e => Except.error e
  | Except.ok e1 =>
    Except.ok (e1 ++ (if n % 30 == 0
      then Event.controlTransfer Xfer.reportTwo :: subPollTwo (res Xfer.reportTwo)
      else []), n + 1)

/-- `k` iterations of the polling loop from counter 0, logging each tick's
events; the loop itself has no exit, so `k` only bounds how far we observe. -/
def run (res : Nat → Xfer → XferResult) : Nat → Except String (Nat × List (Nat × List Event))
  | 0 => Except.ok (0, [])
  | k + 1 =>
    match run res k with
    | Except.error e => Except.error e
    | Except.ok (c, logs) =>
      match tickStep c (res c) with
      | Except.error e => Except.error e
      | Except.ok (evs, c2) => Except.ok (c2, logs ++ [(c, evs)])

/-- An environment in which every control transfer fails. -/
def failingOracle : Nat → Xfer → XferResult := fun _ _ => XferResult.err

/-- An environment in which this tick's REPORT_ONE transfer fails and the
REPORT_TWO transfer has an arbitrary outcome. -/
def oracleFailOne (r2 : XferResult) : Xfer → XferResult
  | Xfer.reportOne => XferResult.err
  | Xfer.reportTwo => r2

/-- The events of the tick with counter `n` when every transfer fails: each
due transfer is attempted and its failure logged. -/
def failTickEvents (n : Nat) : List Event :=
  (if n % 10 == 0
   then [Event.controlTransfer Xfer.reportOne, Event.readError Xfer.reportOne]
   else []) ++
  (if n % 30 == 0
   then [Event.controlTransfer Xfer.reportTwo, Event.readError Xfer.reportTwo]
   else [])

/-- The events of the tick with counter `n` when REPORT_ONE fails and
REPORT_TWO returns `r2`. -/
def failOneTickEvents (n : Nat) (r2 : XferResult) : List Event :=
  (if n % 10 == 0
   then [Event.controlTransfer Xfer.reportOne, Event.readError Xfer.reportOne]
   else []) ++
  (if n % 30 == 0
   then Event.controlTransfer Xfer.reportTwo :: subPollTwo r2
   else [])

/-- A tick whose transfers all fail completes normally with both failures
logged and the counter incremented. -/
theorem tickStep_allFail (n m : Nat) :
    tickStep n (failingOracle m) = Except.ok (failTickEvents n, n + 1) := by
  cases h1 : n % 10 == 0 <;>
    simp [tickStep, failingOracle, subPollOne, subPollTwo, failTickEvents, h1, Except.map]

/-! ### Claims C5, C7 -/

/-- Claim C5: with the counter starting at 0, REPORT_ONE is issued exactly at
ticks with `tick % 10 = 0`, REPORT_TWO exactly at ticks with `tick % 30 = 0`,
both occur in the same tick exactly at multiples of 30, and in such a tick
REPORT_ONE is issued first. -/
theorem c5_schedule (n : Nat) :
    (Xfer.reportOne ∈ tickTransfers n ↔ n % 10 = 0) ∧
    (Xfer.reportTwo ∈ tickTransfers n ↔ n % 30 = 0) ∧
    ((Xfer.reportOne ∈ tickTransfers n ∧ Xfer.reportTwo ∈ tickTransfers n) ↔ n % 30 = 0) ∧
    tickTransfers n = (if n % 30 = 0 then [Xfer.reportOne, Xfer.reportTwo]
                       else if n % 10 = 0 then [Xfer.reportOne] else []) := by
  have h30 : n % 30 = 0 → n % 10 = 0 := by omega
  by_cases h1 : n % 10 = 0 <;> by_cases h2 : n % 30 = 0 <;>
    simp [tickTransfers, h1, h2] <;> tauto

/-- Claim C7: a failed control transfer never terminates the loop.  A tick
whose REPORT_ONE transfer fails completes normally (whatever REPORT_TWO
returns) with the counter incremented; a run in which every transfer fails
proceeds through all `k` observed ticks, logging each failure, and each due
tick attempts its transfer again, the attempt condition depending only on
the tick number. -/
theorem c7_failed_transfer_keeps_looping (k n : Nat) (r2 : XferResult) :
    tickStep n (oracleFailOne r2) = Except.ok (failOneTickEvents n r2, n + 1) ∧
    run failingOracle k =
      Except.ok (k, (List.range k).map fun m => (m, failTickEvents m)) ∧
    (Event.controlTransfer Xfer.reportOne ∈ failTickEvents n ↔ n % 10 = 0) ∧
    (Event.controlTransfer Xfer.reportTwo ∈ failTickEvents n ↔ n % 30 = 0) := by
  refine ⟨?_, ?_, ?_, ?_⟩
  · cases h1 : n % 10 == 0 <;>
      simp [tickStep, oracleFailOne, subPollOne, subPollTwo, failOneTickEvents, h1, Except.map]
  · induction k with
    | zero => simp [run]
    | succ k ih =>
      simp only [run, ih, tickStep_allFail, List.range_succ, List.map_append, List.map_cons,
        List.map_nil]
  · by_cases h1 : n % 10 = 0 <;> by_cases h2 : n % 30 = 0 <;>
      simp [failTickEvents, h1, h2]
  · by_cases h1 : n % 10 = 0 <;> by_cases h2 : n % 30 = 0 <;>
      simp [failTickEvents, h1, h2]

/-! ## Device Locator (src/main.rs lines 24-60) -/

/-- One enumerated USB device: `desc` is the result of `device_descriptor()`
(`none` models an unreadable descriptor, carrying the vendor and product IDs
otherwise), and `openOk` tells whether `device.open()` succeeds. -/
structure DeviceModel where
  desc : Option (Nat × Nat)
  openOk : Bool
deriving DecidableEq

/-- The scanning loop of `open_device` (main.rs lines 45-57): skip devices
with unreadable descriptors, and on a vendor/product match return the device
if it opens, otherwise continue with the next candidate. -/
def scan (vid pid : Nat) : List DeviceModel → Option DeviceModel
  | [] => none
  | d :: rest =>
    match d.desc with
    | none => scan vid pid rest
    | some (v, p) =>
      if v = vid ∧ p = pid then
        if d.openOk then some d else scan vid pid rest
      else scan vid pid rest

/-- `open_device` (main.rs lines 39-60): `devices = none` models
`context.devices()` failing, which makes `open_device` return `None`
immediately (main.rs line 42). -/
def open_device (vid pid : Nat) (devices : Option (List DeviceModel)) : Option DeviceModel :=
  match devices with
  | none => none
  | some l => scan vid pid l

/-- Outcome of `main` (main.rs lines 24-37): `panicked` is the
`panic!`-on-init path (abnormal termination, non-zero status),
`printedNotFound` is the `println!("could not find device ...")` path
(normal termination, zero status), and `startedReading` is the path that
proceeds into `read_device`. -/
inductive MainOutcome where
  | panicked
  | printedNotFound
  | startedReading (d : DeviceModel)
deriving DecidableEq

/-- `main` (main.rs lines 24-37): `ctxOk` models whether
`libusb::Context::new()` succeeds; the hardcoded IDs are vendor 9408 and
product 3. -/
def mainModel (ctxOk : Bool) (devices : Option (List DeviceModel)) : MainOutcome :=
  if ctxOk then
    match open_device 9408 3 devices with
    | some d => MainOutcome.startedReading d
    | none => MainOutcome.printedNotFound
  else MainOutcome.panicked

/-! ### Claim C6 -/

/-- Counterexample to C6 as stated: when device enumeration fails (and libusb
initialized fine), `main` does not terminate abnormally; it takes the
`println!("could not find device ...")` path, which ends the process
normally with a zero status, not the non-zero `panic!` path. -/
theorem c6_enumeration_failure_not_fatal :
    mainModel true none = MainOutcome.printedNotFound ∧
    mainModel true none ≠ MainOutcome.panicked := by
  exact ⟨rfl, by decide⟩

/-- Claim C6 as amended: an enumeration failure aborts the scan with a
"device not found" outcome (a printed message and a normal, zero-status
exit); only a libusb initialization failure panics (non-zero status); an
unreadable descriptor, or a failed open of a matching device, skips exactly
that candidate and scanning continues with the next device. -/
theorem c6_locator_error_handling (vid pid : Nat) (b : Bool)
    (rest : List DeviceModel) (devices : Option (List DeviceModel)) :
    open_device vid pid none = none ∧
    mainModel true none = MainOutcome.printedNotFound ∧
    mainModel false devices = MainOutcome.panicked ∧
    scan vid pid ({ desc := none, openOk := b } :: rest) = scan vid pid rest ∧
    scan vid pid ({ desc := some (vid, pid), openOk := false } :: rest) = scan vid pid rest := by
  refine ⟨rfl, rfl, rfl, rfl, ?_⟩
  simp [scan]

/-! ## Kernel-driver detach and reattach (src/main.rs lines 116-124, 196-198) -/

/-- Observable actions of the kernel-driver bookkeeping. `loggedError` stands
for an error line printed about a failed detach or reattach. -/
inductive DrvEvent where
  | detachAttempted
  | attachAttempted
  | printedKernelDriver (b : Bool)
  | loggedError
deriving DecidableEq

/-- The detach sequence (main.rs lines 116-124): query
`kernel_driver_active`; only the `Ok(true)` arm attempts a detach — whose
result `detachOk` is discarded by `.ok()`, printing nothing — and records the
flag as `true`; every other query result records `false`.  The flag is then
printed. -/
def driverSetup (query : Except Unit Bool) (detachOk : Bool) : Bool × List DrvEvent :=
  match query with
  | Except.ok true => (true, [DrvEvent.detachAttempted, DrvEvent.printedKernelDriver true])
  | _ => (false, [DrvEvent.printedKernelDriver false])

/-- The teardown (main.rs lines 196-198): reattach exactly when the flag was
recorded, discarding the result `attachOk` via `.ok()`. -/
def teardownDriver (hasKernelDriver : Bool) (attachOk : Bool) : List DrvEvent :=
  if hasKernelDriver then [DrvEvent.attachAttempted] else []

/-! ### Claim C8 -/

/-- Counterexample to C8 as stated: when the kernel driver is active and the
detach fails, the flag is still recorded as `true` but no error line is
printed — the detach result is discarded by `.ok()` — so the claimed
"failure is logged" does not hold. -/
theorem c8_detach_failure_not_logged :
    (driverSetup (Except.ok true) false).1 = true ∧
    DrvEvent.loggedError ∉ (driverSetup (Except.ok true) false).2 := by
  exact ⟨rfl, by decide⟩

/-- Claim C8 as amended: if the query reports an active kernel driver, a
detach is attempted and its failure is silently ignored (nothing is logged)
and non-fatal; the was-attached flag is recorded as true regardless of
whether the detach succeeded; on teardown a reattach is attempted exactly
when the flag is true, and the reattach result is likewise ignored. -/
theorem c8_driver_flag_semantics (q : Except Unit Bool) (d d2 a a2 b : Bool) :
    driverSetup q d = driverSetup q d2 ∧
    (driverSetup (Except.ok true) d).1 = true ∧
    DrvEvent.detachAttempted ∈ (driverSetup (Except.ok true) d).2 ∧
    (driverSetup (Except.ok false) d).1 = false ∧
    (driverSetup (Except.error ()) d).1 = false ∧
    DrvEvent.loggedError ∉ (driverSetup q d).2 ∧
    teardownDriver true a = [DrvEvent.attachAttempted] ∧
    teardownDriver false a = [] ∧
    teardownDriver b a = teardownDriver b a2 ∧
    teardownDriver (driverSetup q d).1 a =
      (if (driverSetup q d).1 then [DrvEvent.attachAttempted] else []) := by
  cases q with
  | ok v => cases v <;> simp [driverSetup, teardownDriver]
  | error e => simp [driverSetup, teardownDriver]

end Acurite
